import Mathlib

/-!
Verification of the queue-dispatcher logic of `tweet.py` (x-auto-post).

Shallow embedding conventions:
- CSV rows (`csv.DictReader` dicts) are modelled by the `Row` structure whose
  fields are the columns of the spec's data model; a missing key, which Python's
  `dict.get` reads as `None`, is modelled by the empty string (both compare
  unequal to `"queued"` and are falsy for the `not r.get(...)` checks used by
  the code).  `ensure_columns` is the identity on this fixed schema.
- JST datetimes are `DateTime` records (year, month, day, hour, minute).  All
  datetimes carry the same fixed-offset timezone in the source, so Python's
  datetime comparison is lexicographic on the fields; `dtKey` realises that
  order.  `datetime.now` has seconds, parsed stamps have seconds = 0; comparing
  at minute precision agrees with second precision whenever the left operand
  has zero seconds, which is the only comparison the code performs.
- The network is an oracle `Nat → Attempt` giving the outcome of each numbered
  HTTP POST attempt; `time.time()` is the explicit `nowEpoch` argument;
  `os.environ` is a partial map `String → Option String`; exceptions become
  the `PostErr` sum and `Except` results.
-/

/-- MAX_RETRIES constant of tweet.py. -/
def MAX_RETRIES : Nat := 5

/-- BASE_SLEEP_SEC constant of tweet.py. -/
def BASE_SLEEP_SEC : Nat := 5

/-- MAX_SLEEP_SEC constant of tweet.py. -/
def MAX_SLEEP_SEC : Nat := 120

/-- RETRY_STATUS set of tweet.py (a Python set literal; order irrelevant). -/
def RETRY_STATUS : List Nat := [502, 503, 504, 429]

/-- A JST wall-clock instant at minute precision (see module comment). -/
structure DateTime where
  year : Nat
  month : Nat
  day : Nat
  hour : Nat
  minute : Nat
deriving DecidableEq, Repr

/-- Numeric key realising the field-lexicographic (= chronological, for valid
datetimes in one fixed-offset zone) order used by Python datetime comparison
and by `list.sort(key=...)` in the picker functions. -/
def dtKey (t : DateTime) : Nat :=
  (((t.year * 100 + t.month) * 100 + t.day) * 100 + t.hour) * 100 + t.minute

/-- Python `t <= now` on JST datetimes. -/
def dtLe (a b : DateTime) : Prop := dtKey a ≤ dtKey b

/-- Strict version of `dtLe`, the comparison done by a stable sort on the key. -/
def dtLt (a b : DateTime) : Prop := dtKey a < dtKey b

instance (a b : DateTime) : Decidable (dtLe a b) := by unfold dtLe; infer_instance

instance (a b : DateTime) : Decidable (dtLt a b) := by unfold dtLt; infer_instance

/-- Python `t.date() == now.date()`. -/
def sameDay (a b : DateTime) : Prop :=
  a.year = b.year ∧ a.month = b.month ∧ a.day = b.day

instance (a b : DateTime) : Decidable (sameDay a b) := by unfold sameDay; infer_instance

/-- Gregorian leap-year rule (backs `datetime`'s day-of-month validation). -/
def isLeap (y : Nat) : Bool :=
  y % 4 == 0 && (y % 100 != 0 || y % 400 == 0)

/-- Number of days in a month, as validated by the `datetime` constructor. -/
def daysInMonth (y m : Nat) : Nat :=
  if m = 2 then (if isLeap y then 29 else 28)
  else if m = 4 ∨ m = 6 ∨ m = 9 ∨ m = 11 then 30
  else 31

/-- Decimal value of a digit string, as `int(...)` computes it. -/
def digitsToNat (cs : List Char) : Nat :=
  cs.foldl (fun a c => 10 * a + (c.toNat - 48)) 0

/-- Model of `parse_jst`: `datetime.strptime(s, "%Y-%m-%d %H:%M")` with
`tzinfo` set to JST.  Per CPython's `_strptime` regexes, `%Y` is exactly four
digits, `%m` `%d` `%H` `%M` are one or two digits within their ranges, a
literal space matches one or more whitespace characters, trailing characters
are rejected ("unconverted data remains"), and the `datetime` constructor
additionally validates the day against the month and `year >= 1`. -/
def parse_jst (s : String) : Option DateTime :=
  let cs := s.data
  let yd := cs.takeWhile Char.isDigit
  let rest1 := cs.dropWhile Char.isDigit
  match rest1 with
  | '-' :: r2 =>
    let md := r2.takeWhile Char.isDigit
    let rest2 := r2.dropWhile Char.isDigit
    match rest2 with
    | '-' :: r3 =>
      let dd := r3.takeWhile Char.isDigit
      let rest3 := r3.dropWhile Char.isDigit
      let ws := rest3.takeWhile Char.isWhitespace
      let rest4 := rest3.dropWhile Char.isWhitespace
      let hd := rest4.takeWhile Char.isDigit
      let rest5 := rest4.dropWhile Char.isDigit
      match rest5 with
      | ':' :: r6 =>
        let mind := r6.takeWhile Char.isDigit
        let rest6 := r6.dropWhile Char.isDigit
        if yd.length = 4 ∧ (1 ≤ md.length ∧ md.length ≤ 2) ∧
            (1 ≤ dd.length ∧ dd.length ≤ 2) ∧ 1 ≤ ws.length ∧
            (1 ≤ hd.length ∧ hd.length ≤ 2) ∧ (1 ≤ mind.length ∧ mind.length ≤ 2) ∧
            rest6 = [] then
          let y := digitsToNat yd
          let mo := digitsToNat md
          let d := digitsToNat dd
          let h := digitsToNat hd
          let mi := digitsToNat mind
          if 1 ≤ y ∧ 1 ≤ mo ∧ mo ≤ 12 ∧ 1 ≤ d ∧ d ≤ daysInMonth y mo ∧
              h ≤ 23 ∧ mi ≤ 59 then
            some ⟨y, mo, d, h, mi⟩
          else none
        else none
      | _ => none
    | _ => none
  | _ => none

/-- Python `%Y-%m-%d %H:%M` zero-padding, two digits. -/
def pad2 (n : Nat) : String :=
  if n < 10 then "0" ++ toString n else toString n

/-- Python `%Y` zero-padding, four digits. -/
def pad4 (n : Nat) : String :=
  if n < 10 then "000" ++ toString n
  else if n < 100 then "00" ++ toString n
  else if n < 1000 then "0" ++ toString n
  else toString n

/-- Model of `now.strftime("%Y-%m-%d %H:%M")`. -/
def fmtDateTime (t : DateTime) : String :=
  pad4 t.year ++ "-" ++ pad2 t.month ++ "-" ++ pad2 t.day ++ " " ++
    pad2 t.hour ++ ":" ++ pad2 t.minute

/-- Queue row (one `csv.DictReader` dict).  Missing keys are read as the empty
string; see the module comment. -/
structure Row where
  id : String
  text : String
  post_at_jst : String
  status : String
  tweet_id : String
  posted_at_jst : String
  reply_text : String
  reply_tweet_id : String
  reply_posted_at_jst : String
  last_error : String
  last_attempt_at_jst : String
deriving DecidableEq, Repr

/-- An HTTP response as the code observes it: the status code, the reason
phrase (used by `raise_for_status`'s message), the `x-rate-limit-reset`
header if present, and the `data.id` field of the JSON body if the body
parses and has it. -/
structure Resp where
  status : Nat
  reason : String
  rateLimitReset : Option String
  dataId : Option String
deriving DecidableEq, Repr

/-- Outcome of one `requests.post` call: a response, a
`Timeout`/`ConnectionError` (the exact class name is carried for the
`type(e).__name__` message), or some other raised exception. -/
inductive Attempt where
  | resp (r : Resp)
  | netErr (typeName : String) (detail : String)
  | raised (typeName : String) (detail : String)
deriving DecidableEq, Repr

/-- Exceptions that can escape `post_to_x` (all are `Exception` subclasses,
so all are caught by `main`'s `except Exception`). -/
inductive PostErr where
  | keyError (v : String)
  | httpError (status : Nat) (reason : String)
  | netError (typeName : String) (detail : String)
  | jsonError (typeName : String) (detail : String)
  | otherError (typeName : String) (detail : String)
deriving DecidableEq, Repr

/-- Python `f"{type(e).__name__}: {e}"` for each modelled exception.  For
`HTTPError`, `str(e)` is the message built by `raise_for_status`. -/
def excMessage : PostErr → String
  | .keyError v => "KeyError: '" ++ v ++ "'"
  | .httpError st reason =>
      "HTTPError: " ++ toString st ++
        (if st < 500 then " Client Error: " else " Server Error: ") ++
        reason ++ " for url: https://api.twitter.com/2/tweets"
  | .netError t d => t ++ ": " ++ d
  | .jsonError t d => t ++ ": " ++ d
  | .otherError t d => t ++ ": " ++ d

/-- Python slice `s[:500]` (by code point, like Lean chars). -/
def truncate500 (s : String) : String := String.mk (s.data.take 500)

/-- The four OAuth1 credentials, in the order `make_auth` reads them. -/
structure Auth where
  key : String
  secret : String
  token : String
  tokenSecret : String
deriving DecidableEq, Repr

/-- Model of `make_auth`: `os.environ[k]` raises `KeyError(k)` on the first
missing variable. -/
def make_auth (env : String → Option String) : Except PostErr Auth :=
  match env "X_API_KEY" with
  | none => .error (.keyError "X_API_KEY")
  | some k =>
    match env "X_API_SECRET" with
    | none => .error (.keyError "X_API_SECRET")
    | some s =>
      match env "X_ACCESS_TOKEN" with
      | none => .error (.keyError "X_ACCESS_TOKEN")
      | some t =>
        match env "X_ACCESS_TOKEN_SECRET" with
        | none => .error (.keyError "X_ACCESS_TOKEN_SECRET")
        | some ts => .ok ⟨k, s, t, ts⟩

/-- Python `str.isdigit` (nonempty, all digits). -/
def isdigitStr (s : String) : Bool := !s.isEmpty && s.data.all Char.isDigit

/-- Model of `calc_wait_seconds` (tweet.py lines 60-66): exponential backoff,
replaced for an HTTP 429 by the server reset delta floored at 1, then capped
at `MAX_SLEEP_SEC` in every case. -/
def calc_wait_seconds (resp : Option Resp) (attempt : Nat) (nowEpoch : Nat) : Int :=
  let wait : Int := (BASE_SLEEP_SEC : Int) * 2 ^ (attempt - 1)
  let wait : Int :=
    match resp with
    | some r =>
      if r.status = 429 then
        match r.rateLimitReset with
        | some reset =>
            if isdigitStr reset then
              max 1 ((digitsToNat reset.data : Int) - (nowEpoch : Int))
            else wait
        | none => wait
      else wait
    | none => wait
  min wait (MAX_SLEEP_SEC : Int)

/-- The inline backoff of the network-error branch (tweet.py line 102). -/
def netRetryWait (attempt : Nat) : Int :=
  min ((BASE_SLEEP_SEC : Int) * 2 ^ (attempt - 1)) (MAX_SLEEP_SEC : Int)

instance exceptDecEq {ε α : Type} [DecidableEq ε] [DecidableEq α] :
    DecidableEq (Except ε α) := fun a b =>
  match a, b with
  | .ok x, .ok y =>
      if h : x = y then isTrue (h ▸ rfl) else isFalse fun c => h (Except.ok.inj c)
  | .error x, .error y =>
      if h : x = y then isTrue (h ▸ rfl) else isFalse fun c => h (Except.error.inj c)
  | .ok _, .error _ => isFalse fun c => Except.noConfusion c
  | .error _, .ok _ => isFalse fun c => Except.noConfusion c

/-- Observable outcome of one `post_to_x` call: its result (returned id or
raised exception), the number of `requests.post` attempts made, and the
sleeps performed between retries. -/
structure RunLog where
  result : Except PostErr String
  attempts : Nat
  waits : List Int
deriving DecidableEq, Repr

/-- Bookkeeping for one more attempt before the rest of a run: the final
result is the rest's, with one more `requests.post` call and one more sleep
recorded. -/
def consLog (w : Int) (l : RunLog) : RunLog :=
  ⟨l.result, l.attempts + 1, w :: l.waits⟩

/-- A run that ends at the current attempt with the given result: one
`requests.post` call, no further sleep. -/
def oneLog (res : Except PostErr String) : RunLog := ⟨res, 1, []⟩

/-- The retry loop of `post_to_x` (tweet.py lines 77-106).  `attempt` is the
Python loop variable; `fuel` is a structural-recursion bound kept in sync with
`MAX_RETRIES + 1 - attempt` by the entry point (the `continue` branches are
guarded by `attempt < MAX_RETRIES`, so the fuel-0 default is unreachable from
the entry point).  A retryable status at the last attempt falls through to
`raise_for_status`, which raises exactly for statuses in 400..599. -/
def postLoop (net : Nat → Attempt) (nowEpoch : Nat) : Nat → Nat → RunLog
  | _, 0 => ⟨.error (.otherError "LoopExhausted" "unreachable"), 0, []⟩
  | attempt, fuel + 1 =>
    match net attempt with
    | .resp r =>
      if r.status ∈ RETRY_STATUS then
        if attempt < MAX_RETRIES then
          consLog (calc_wait_seconds (some r) attempt nowEpoch)
            (postLoop net nowEpoch (attempt + 1) fuel)
        else oneLog (.error (.httpError r.status r.reason))
      else if 400 ≤ r.status ∧ r.status < 600 then
        oneLog (.error (.httpError r.status r.reason))
      else
        match r.dataId with
        | some i => oneLog (.ok i)
        | none => oneLog (.error (.jsonError "KeyError" "'data'"))
    | .netErr tn d =>
      if attempt < MAX_RETRIES then
        consLog (netRetryWait attempt) (postLoop net nowEpoch (attempt + 1) fuel)
      else oneLog (.error (.netError tn d))
    | .raised tn d => oneLog (.error (.otherError tn d))

/-- Model of `post_to_x` (tweet.py lines 69-106).  The payload (`text`,
optional reply reference) goes to the wire; responses come from the oracle,
so the parameters do not influence the modelled outcome. -/
def post_to_x (env : String → Option String) (net : Nat → Attempt)
    (nowEpoch : Nat) (text : String) (reply_to_tweet_id : Option String) : RunLog :=
  match make_auth env with
  | .error e => ⟨.error e, 0, []⟩
  | .ok _ => postLoop net nowEpoch 1 MAX_RETRIES

/-- Model of `guess_slot_hour` (tweet.py lines 109-119). -/
def guess_slot_hour (now : DateTime) : Option Nat :=
  let h := now.hour
  if 6 ≤ h ∧ h < 10 then some 8
  else if 10 ≤ h ∧ h < 14 then some 12
  else if 14 ≤ h ∧ h < 18 then some 16
  else if 18 ≤ h ∧ h < 22 then some 20
  else none

/-- Python truthiness of the `if slot_hour:` test in `main`: falsy for `None`
and for the integer 0 (never returned by `guess_slot_hour`, but modelled
faithfully). -/
def intTruthy : Option Nat → Bool
  | none => false
  | some n => n != 0

/-- The candidate list collected by `pick_slot_post`'s loop: queued rows with
a nonempty, parseable `post_at_jst` on today's date, in the slot hour, not in
the future, paired with their parsed time, in file order. -/
def slotCandidates (rows : List Row) (now : DateTime) (slot_hour : Nat) :
    List (DateTime × Row) :=
  rows.filterMap fun r =>
    if r.status = "queued" ∧ r.post_at_jst ≠ "" then
      match parse_jst r.post_at_jst with
      | some t =>
          if sameDay t now ∧ t.hour = slot_hour ∧ dtLe t now then some (t, r) else none
      | none => none
    else none

/-- The candidate list collected by `pick_oldest_overdue`'s loop: queued rows
with a nonempty, parseable `post_at_jst` not in the future, any day or hour. -/
def overdueCandidates (rows : List Row) (now : DateTime) : List (DateTime × Row) :=
  rows.filterMap fun r =>
    if r.status = "queued" ∧ r.post_at_jst ≠ "" then
      match parse_jst r.post_at_jst with
      | some t => if dtLe t now then some (t, r) else none
      | none => none
    else none

/-- Stable insertion of a keyed pair: placed after every strictly smaller key
and before the first key that is not smaller, so equal keys keep their
original relative order. -/
def insertByTime (x : DateTime × Row) : List (DateTime × Row) → List (DateTime × Row)
  | [] => [x]
  | y :: ys => if dtLt y.1 x.1 then y :: insertByTime x ys else x :: y :: ys

/-- Model of Python's `candidates.sort(key=lambda x: x[0])`: `list.sort` is a
stable sort on the datetime key, modelled here by a stable insertion sort
(any two stable sorts agree, in particular on the head element the pickers
extract). -/
def pySortByTime : List (DateTime × Row) → List (DateTime × Row)
  | [] => []
  | x :: xs => insertByTime x (pySortByTime xs)

/-- Model of `pick_slot_post` (tweet.py lines 122-137): sort the candidates by
parsed time and return the first row, or `None` if there are none. -/
def pick_slot_post (rows : List Row) (now : DateTime) (slot_hour : Nat) : Option Row :=
  ((pySortByTime (slotCandidates rows now slot_hour)).head?).map Prod.snd

/-- Model of `pick_oldest_overdue` (tweet.py lines 140-154). -/
def pick_oldest_overdue (rows : List Row) (now : DateTime) : Option Row :=
  ((pySortByTime (overdueCandidates rows now)).head?).map Prod.snd

/-- Target selection of `main` (tweet.py lines 175-191): slot pick when inside
a (truthy) slot window, else — or when the slot pick is empty — the backlog
pick. -/
def selectTarget (rows : List Row) (now : DateTime) : Option Row :=
  let slot_hour := guess_slot_hour now
  if intTruthy slot_hour then
    match pick_slot_post rows now (slot_hour.getD 0) with
    | some target => some target
    | none => pick_oldest_overdue rows now
  else pick_oldest_overdue rows now

/-- The `for r in rows: if r.get("id") == target_id: ...; break` update
pattern of `main`: rewrite the first row whose id matches, keep the rest. -/
def updateFirstById (rows : List Row) (tid : String) (f : Row → Row) : List Row :=
  match rows with
  | [] => []
  | r :: rs => if r.id = tid then f r :: rs else r :: updateFirstById rs tid f

/-- First row with the given id, in file order. -/
def findRow? (rows : List Row) (tid : String) : Option Row :=
  rows.find? fun r => r.id = tid

/-- Python `str.strip()` with no argument: remove leading and trailing
whitespace (implemented over the character list so that it evaluates by
kernel reduction). -/
def pyStrip (s : String) : String :=
  String.mk (((s.data.dropWhile Char.isWhitespace).reverse.dropWhile
    Char.isWhitespace).reverse)

/-- Observable outcome of one dispatcher run: the row list written by
`save_rows` (or `none` when `main` returns without saving), the process exit
status (0 on every return path of `main`; exceptions raised during delivery
are all caught by the catch-all handlers), and the `in_reply_to` id passed to
the follow-up post when one is attempted. -/
structure MainResult where
  saved : Option (List Row)
  exitCode : Nat
  replyCall : Option String
deriving DecidableEq, Repr

/-- Model of `main` (tweet.py lines 157-244; named `mainRun` because Lean reserves `main` for executable entry points).  `now` is the single
`now_jst()` sample; `nowEpoch` stands for `time.time()` inside the retry
backoff; `parentNet` and `replyNet` are the attempt oracles of the two
`post_to_x` calls.  `ensure_columns` is the identity on the fixed `Row`
schema (the model assumes the CSV header carries the data-model columns). -/
def mainRun (now : DateTime) (nowEpoch : Nat) (env : String → Option String)
    (parentNet replyNet : Nat → Attempt) (rows : List Row) : MainResult :=
  if rows.isEmpty then ⟨none, 0, none⟩
  else
    match selectTarget rows now with
    | none => ⟨none, 0, none⟩
    | some target =>
      let now_s := fmtDateTime now
      match (post_to_x env parentNet nowEpoch target.text none).result with
      | .error e =>
          ⟨some (updateFirstById rows target.id fun r =>
              { r with last_error := truncate500 (excMessage e),
                       last_attempt_at_jst := now_s }), 0, none⟩
      | .ok tweet_id =>
          let rows1 := updateFirstById rows target.id fun r =>
            { r with status := "posted", tweet_id := tweet_id,
                     posted_at_jst := now_s, last_error := "",
                     last_attempt_at_jst := now_s }
          if pyStrip target.reply_text = "" then ⟨some rows1, 0, none⟩
          else
            match (post_to_x env replyNet nowEpoch (pyStrip target.reply_text)
                (some tweet_id)).result with
            | .ok reply_id =>
                ⟨some (updateFirstById rows1 target.id fun r =>
                    { r with reply_tweet_id := reply_id,
                             reply_posted_at_jst := now_s }), 0, some tweet_id⟩
            | .error e2 =>
                ⟨some (updateFirstById rows1 target.id fun r =>
                    { r with last_error := truncate500 ("reply " ++ excMessage e2),
                             last_attempt_at_jst := now_s }), 0, some tweet_id⟩

/-- Earliest-key element, ties resolved to the first in list order: the
specification's description of both pickers ("pick the one with the earliest
`post_at`; tie-break: first in file order"). -/
def firstEarliest : List (DateTime × Row) → Option (DateTime × Row)
  | [] => none
  | x :: xs =>
    match firstEarliest xs with
    | none => some x
    | some m => if dtLt m.1 x.1 then some m else some x

/-- Spec-side slot pick, written from the claim's words: among rows with
status `queued` and a parseable `post_at` on the current calendar day whose
hour equals the slot hour and whose time is at most `now`, the earliest, ties
broken by file position. -/
def specSlotPick (rows : List Row) (now : DateTime) (slot_hour : Nat) : Option Row :=
  (firstEarliest (rows.filterMap fun r =>
    match parse_jst r.post_at_jst with
    | some t =>
        if r.status = "queued" ∧ sameDay t now ∧ t.hour = slot_hour ∧ dtLe t now then
          some (t, r)
        else none
    | none => none)).map Prod.snd

/-- Spec-side backlog pick, written from the claim's words: among all rows
with status `queued` and a parseable `post_at` at most `now` — any day or
hour — the earliest, ties broken by file position. -/
def specBacklogPick (rows : List Row) (now : DateTime) : Option Row :=
  (firstEarliest (rows.filterMap fun r =>
    match parse_jst r.post_at_jst with
    | some t => if r.status = "queued" ∧ dtLe t now then some (t, r) else none
    | none => none)).map Prod.snd

/-- An attempt outcome that triggers the retry path of `post_to_x`: a
response whose status is in `RETRY_STATUS`, or a `Timeout`/`ConnectionError`
caught by the loop's `except` clause. -/
def isRetryable : Attempt → Bool
  | .resp r => r.status ∈ RETRY_STATUS
  | .netErr _ _ => true
  | .raised _ _ => false

/-- The exception raised when the final attempt fails retryably: for a
retryable HTTP status the loop falls through to `raise_for_status`
(`HTTPError`); for a network error the `except` clause re-raises it. -/
def lastRaise : Attempt → PostErr
  | .resp r => .httpError r.status r.reason
  | .netErr t d => .netError t d
  | .raised t d => .otherError t d

/-- Spec-side reading of a response, from the claim's words: the numeric
value of the `x-rate-limit-reset` header of an HTTP 429 response, when that
header is present and numeric. -/
def has429Reset (r : Resp) : Option Nat :=
  if r.status = 429 then
    match r.rateLimitReset with
    | some s => if isdigitStr s then some (digitsToNat s.data) else none
    | none => none
  else none

/-! Concrete inputs used by the per-claim witnesses and counterexamples. -/

def c1rows : List Row :=
  [⟨"1", "early", "2024-01-01 08:10", "queued", "", "", "", "", "", "", ""⟩,
   ⟨"2", "earliest", "2024-01-01 08:00", "queued", "", "", "", "", "", "", ""⟩,
   ⟨"3", "tie", "2024-01-01 08:00", "queued", "", "", "", "", "", "", ""⟩]

def c1now : DateTime := ⟨2024, 1, 1, 8, 30⟩

def c2rows : List Row :=
  [⟨"1", "overdue", "2023-12-31 07:00", "queued", "", "", "", "", "", "", ""⟩,
   ⟨"2", "future", "2099-01-01 08:00", "queued", "", "", "", "", "", "", ""⟩]

def c2now : DateTime := ⟨2024, 1, 1, 23, 30⟩

def c10rows : List Row :=
  [⟨"1", "future", "2099-01-01 08:00", "queued", "", "", "", "", "", "", ""⟩,
   ⟨"2", "done", "2024-01-01 08:00", "posted", "9", "2024-01-01 08:01", "", "", "", "", ""⟩]

def c10now : DateTime := ⟨2024, 1, 2, 8, 5⟩

def c3env : String → Option String := fun _ => some "k"

def c3net : Nat → Attempt := fun _ => .netErr "ReadTimeout" "timed out"

def c5rows : List Row :=
  [⟨"1", "hello", "2024-01-01 08:00", "queued", "", "", "", "", "", "", ""⟩]

def c5now : DateTime := ⟨2024, 1, 1, 8, 5⟩

def c5env : String → Option String := fun _ => some "k"

def c5net : Nat → Attempt := fun _ => .resp ⟨201, "Created", none, some "123"⟩

def c5row : Row := ⟨"1", "hello", "2024-01-01 08:00", "queued", "", "", "", "", "", "", ""⟩

def c6row : Row := ⟨"1", "hello", "2024-01-01 08:00", "queued", "", "", "", "", "", "", ""⟩

def c6rows : List Row := [c6row]

def c6now : DateTime := ⟨2024, 1, 1, 8, 5⟩

def c6net : Nat → Attempt := fun _ => .resp ⟨500, "Internal Server Error", none, none⟩

def c7row : Row := ⟨"1", "quiz", "2024-01-01 08:00", "queued", "", "", "the answer", "", "", "", ""⟩

def c7rows : List Row := [c7row]

def c7now : DateTime := ⟨2024, 1, 1, 8, 5⟩

def c7pnet : Nat → Attempt := fun _ => .resp ⟨201, "Created", none, some "555"⟩

def c7rnet : Nat → Attempt := fun _ => .resp ⟨500, "Internal Server Error", none, none⟩

def c8env : String → Option String := fun v => if v = "X_API_KEY" then none else some "s"

def c8net : Nat → Attempt := fun _ => .resp ⟨201, "Created", none, some "9"⟩

def c8row : Row := ⟨"1", "hello", "2024-01-01 08:00", "queued", "", "", "", "", "", "", ""⟩

def c8now : DateTime := ⟨2024, 1, 1, 8, 5⟩

def c9row : Row := ⟨"1", "hello", "2024-01-01 08:00", "queued", "", "", "", "", "", "", ""⟩

def c9rows : List Row := [c9row]

def c9now : DateTime := ⟨2024, 1, 1, 8, 5⟩

def c9net : Nat → Attempt := fun _ => .resp ⟨201, "Created", none, some "77"⟩

def c9rows' : List Row :=
  [{ c9row with status := "posted", tweet_id := "77", posted_at_jst := fmtDateTime c9now, last_error := "", last_attempt_at_jst := fmtDateTime c9now }]

/-! Helper lemmas: the stable sort, candidate filters and picker functions. -/

lemma parse_jst_empty : parse_jst "" = none := by decide

lemma head?_pySortByTime (l : List (DateTime × Row)) :
    (pySortByTime l).head? = firstEarliest l := by
  induction l with
  | nil => rfl
  | cons x xs ih =>
    show (insertByTime x (pySortByTime xs)).head? = _
    rw [firstEarliest, ← ih]
    cases h : pySortByTime xs with
    | nil => simp [insertByTime]
    | cons y ys =>
      by_cases hc : dtLt y.1 x.1 <;> simp [insertByTime, hc]

lemma mem_insertByTime {x p : DateTime × Row} {l : List (DateTime × Row)} :
    p ∈ insertByTime x l ↔ p = x ∨ p ∈ l := by
  induction l with
  | nil => simp [insertByTime]
  | cons y ys ih =>
    simp only [insertByTime]
    split
    · simp [ih]; tauto
    · simp

lemma mem_pySortByTime {p : DateTime × Row} {l : List (DateTime × Row)} :
    p ∈ pySortByTime l ↔ p ∈ l := by
  induction l with
  | nil => simp [pySortByTime]
  | cons x xs ih => simp [pySortByTime, mem_insertByTime, ih]

lemma mem_of_head? {α : Type} {l : List α} {a : α} (h : l.head? = some a) : a ∈ l := by
  cases l with
  | nil => simp at h
  | cons x xs => simp [List.head?] at h; simp [h]

lemma slotCandidates_mem {rows : List Row} {now : DateTime} {h : Nat}
    {t : DateTime} {r : Row} (hm : (t, r) ∈ slotCandidates rows now h) :
    r ∈ rows ∧ r.status = "queued" := by
  simp only [slotCandidates, List.mem_filterMap] at hm
  obtain ⟨a, ha, heq⟩ := hm
  by_cases hc : a.status = "queued" ∧ a.post_at_jst ≠ ""
  · rw [if_pos hc] at heq
    cases hp : parse_jst a.post_at_jst with
    | none => rw [hp] at heq; exact absurd heq (by simp)
    | some t' =>
      rw [hp] at heq
      simp only [Option.ite_none_right_eq_some, Option.some.injEq, Prod.mk.injEq] at heq
      obtain ⟨-, -, hr⟩ := heq
      subst hr
      exact ⟨ha, hc.1⟩
  · rw [if_neg hc] at heq; exact absurd heq (by simp)

lemma overdueCandidates_mem {rows : List Row} {now : DateTime}
    {t : DateTime} {r : Row} (hm : (t, r) ∈ overdueCandidates rows now) :
    r ∈ rows ∧ r.status = "queued" := by
  simp only [overdueCandidates, List.mem_filterMap] at hm
  obtain ⟨a, ha, heq⟩ := hm
  by_cases hc : a.status = "queued" ∧ a.post_at_jst ≠ ""
  · rw [if_pos hc] at heq
    cases hp : parse_jst a.post_at_jst with
    | none => rw [hp] at heq; exact absurd heq (by simp)
    | some t' =>
      rw [hp] at heq
      simp only [Option.ite_none_right_eq_some, Option.some.injEq, Prod.mk.injEq] at heq
      obtain ⟨-, -, hr⟩ := heq
      subst hr
      exact ⟨ha, hc.1⟩
  · rw [if_neg hc] at heq; exact absurd heq (by simp)

lemma pick_slot_post_eq_spec (rows : List Row) (now : DateTime) (h : Nat) :
    pick_slot_post rows now h = specSlotPick rows now h := by
  unfold pick_slot_post specSlotPick
  rw [head?_pySortByTime]
  congr 1
  apply congrArg
  apply List.filterMap_congr
  intro r _
  cases hp : parse_jst r.post_at_jst with
  | none =>
    by_cases hpe : r.post_at_jst = ""
    · simp [hpe, parse_jst_empty]
    · simp [hp, hpe]
  | some t =>
    have hpe : r.post_at_jst ≠ "" := by
      intro hc; rw [hc, parse_jst_empty] at hp; cases hp
    by_cases hs : r.status = "queued"
    · simp [hp, hs, hpe]
    · simp [hp, hs]

lemma pick_oldest_overdue_eq_spec (rows : List Row) (now : DateTime) :
    pick_oldest_overdue rows now = specBacklogPick rows now := by
  unfold pick_oldest_overdue specBacklogPick
  rw [head?_pySortByTime]
  congr 1
  apply congrArg
  apply List.filterMap_congr
  intro r _
  cases hp : parse_jst r.post_at_jst with
  | none =>
    by_cases hpe : r.post_at_jst = ""
    · simp [hpe, parse_jst_empty]
    · simp [hp, hpe]
  | some t =>
    have hpe : r.post_at_jst ≠ "" := by
      intro hc; rw [hc, parse_jst_empty] at hp; cases hp
    by_cases hs : r.status = "queued"
    · simp [hp, hs, hpe]
    · simp [hp, hs]

lemma guess_slot_hour_cases {now : DateTime} {h : Nat}
    (hg : guess_slot_hour now = some h) : h = 8 ∨ h = 12 ∨ h = 16 ∨ h = 20 := by
  simp only [guess_slot_hour] at hg
  split_ifs at hg <;> simp_all

lemma selectTarget_of_slot {rows : List Row} {now : DateTime} {h : Nat} {r : Row}
    (hg : guess_slot_hour now = some h) (hp : pick_slot_post rows now h = some r) :
    selectTarget rows now = some r := by
  have hne : h ≠ 0 := by rcases guess_slot_hour_cases hg with h8 | h12 | h16 | h20 <;> omega
  simp only [selectTarget, hg]
  simp [intTruthy, hne, hp]

lemma selectTarget_no_slot {rows : List Row} {now : DateTime}
    (hns : ∀ h, guess_slot_hour now = some h → pick_slot_post rows now h = none) :
    selectTarget rows now = pick_oldest_overdue rows now := by
  cases hg : guess_slot_hour now with
  | none => simp [selectTarget, hg, intTruthy]
  | some h =>
    have hne : h ≠ 0 := by rcases guess_slot_hour_cases hg with h8 | h12 | h16 | h20 <;> omega
    simp only [selectTarget, hg]
    simp [intTruthy, hne, hns h hg]

lemma selectTarget_mem {rows : List Row} {now : DateTime} {t : Row}
    (hsel : selectTarget rows now = some t) : t ∈ rows ∧ t.status = "queued" := by
  have hslot : ∀ h, pick_slot_post rows now h = some t → t ∈ rows ∧ t.status = "queued" := by
    intro h hp
    unfold pick_slot_post at hp
    cases hh : (pySortByTime (slotCandidates rows now h)).head? with
    | none => rw [hh] at hp; simp at hp
    | some p =>
      rw [hh] at hp; simp at hp
      have hmem : p ∈ slotCandidates rows now h := mem_pySortByTime.mp (mem_of_head? hh)
      have : (p.1, p.2) ∈ slotCandidates rows now h := by simpa using hmem
      rw [hp] at this
      exact slotCandidates_mem this
  have hover : pick_oldest_overdue rows now = some t → t ∈ rows ∧ t.status = "queued" := by
    intro hp
    unfold pick_oldest_overdue at hp
    cases hh : (pySortByTime (overdueCandidates rows now)).head? with
    | none => rw [hh] at hp; simp at hp
    | some p =>
      rw [hh] at hp; simp at hp
      have hmem : p ∈ overdueCandidates rows now := mem_pySortByTime.mp (mem_of_head? hh)
      have : (p.1, p.2) ∈ overdueCandidates rows now := by simpa using hmem
      rw [hp] at this
      exact overdueCandidates_mem this
  simp only [selectTarget] at hsel
  split at hsel
  · split at hsel
    · next target heq =>
        injection hsel with h2
        subst h2
        exact hslot _ heq
    · exact hover hsel
  · exact hover hsel

/-! Helper lemmas: row updates, id lookup, string facts. -/

lemma selectTarget_nil (now : DateTime) : selectTarget [] now = none := by
  cases hg : guess_slot_hour now <;>
    simp [selectTarget, hg, intTruthy, pick_slot_post, pick_oldest_overdue,
      slotCandidates, overdueCandidates, pySortByTime]

lemma mainRun_no_target {rows : List Row} {now : DateTime}
    (h : selectTarget rows now = none) (nowEpoch : Nat) (env : String → Option String)
    (parentNet replyNet : Nat → Attempt) :
    mainRun now nowEpoch env parentNet replyNet rows = ⟨none, 0, none⟩ := by
  unfold mainRun
  by_cases he : rows.isEmpty
  · simp [he]
  · simp [he, h]

lemma map_id_updateFirstById {rows : List Row} {tid : String} {f : Row → Row}
    (hid : ∀ r, (f r).id = r.id) :
    (updateFirstById rows tid f).map Row.id = rows.map Row.id := by
  induction rows with
  | nil => rfl
  | cons r rs ih =>
    by_cases h : r.id = tid
    · simp [updateFirstById, h, hid]
    · simp [updateFirstById, h, ih]

lemma findRow?_updateFirstById {rows : List Row} {tid : String} {f : Row → Row}
    (hid : ∀ r, (f r).id = r.id) :
    findRow? (updateFirstById rows tid f) tid = (findRow? rows tid).map f := by
  induction rows with
  | nil => rfl
  | cons r rs ih =>
    by_cases h : r.id = tid
    · simp [updateFirstById, h, findRow?, List.find?_cons, hid]
    · simp only [updateFirstById, if_neg h]
      simp only [findRow?, List.find?_cons] at ih ⊢
      simp [h, ih]

lemma findRow?_self {rows : List Row} {t : Row}
    (hnd : (rows.map Row.id).Nodup) (hm : t ∈ rows) :
    findRow? rows t.id = some t := by
  induction rows with
  | nil => cases hm
  | cons r rs ih =>
    rw [List.map_cons, List.nodup_cons] at hnd
    rcases List.mem_cons.mp hm with rfl | hm'
    · simp [findRow?, List.find?_cons]
    · have hne : r.id ≠ t.id := by
        intro hc
        exact hnd.1 (hc ▸ List.mem_map.mpr ⟨t, hm', rfl⟩)
      simp only [findRow?, List.find?_cons]
      simp only [findRow?] at ih
      simp [hne, ih hnd.2 hm']

lemma row_eq_of_id {rows : List Row} {t r : Row}
    (hnd : (rows.map Row.id).Nodup) (ht : t ∈ rows) (hr : r ∈ rows)
    (hid : r.id = t.id) : r = t := by
  induction rows with
  | nil => cases ht
  | cons a as ih =>
    rw [List.map_cons, List.nodup_cons] at hnd
    rcases List.mem_cons.mp ht with rfl | ht' <;> rcases List.mem_cons.mp hr with rfl | hr'
    · rfl
    · exact absurd (hid ▸ List.mem_map.mpr ⟨r, hr', rfl⟩) hnd.1
    · exact absurd (hid ▸ List.mem_map.mpr ⟨t, ht', rfl⟩) hnd.1
    · exact ih hnd.2 ht' hr'

lemma updateFirstById_comp (rows : List Row) (tid : String) (f g : Row → Row)
    (hid : ∀ r, (f r).id = r.id) :
    updateFirstById (updateFirstById rows tid f) tid g =
      updateFirstById rows tid (fun r => g (f r)) := by
  induction rows with
  | nil => rfl
  | cons r rs ih =>
    by_cases h : r.id = tid
    · simp [updateFirstById, h, hid]
    · simp [updateFirstById, h, ih]

lemma forall₂_updateFirstById {rows : List Row} {tid : String} {f : Row → Row}
    (hid : ∀ r, (f r).id = r.id)
    (hf : ∀ r ∈ rows, r.id = tid →
      (r.status = "queued" ∧ (f r).status = "posted") ∨ (f r).status = r.status) :
    List.Forall₂ (fun a b => b.id = a.id ∧
        (b.status = a.status ∨ (a.status = "queued" ∧ b.status = "posted")))
      rows (updateFirstById rows tid f) := by
  induction rows with
  | nil => exact List.Forall₂.nil
  | cons r rs ih =>
    by_cases h : r.id = tid
    · rw [updateFirstById, if_pos h]
      refine List.Forall₂.cons ⟨hid r, ?_⟩ ?_
      · rcases hf r (List.mem_cons_self r rs) h with ⟨hq, hp⟩ | hsame
        · exact Or.inr ⟨hq, hp⟩
        · exact Or.inl hsame
      · exact List.forall₂_same.mpr fun x _ => ⟨rfl, Or.inl rfl⟩
    · rw [updateFirstById, if_neg h]
      exact List.Forall₂.cons ⟨rfl, Or.inl rfl⟩
        (ih fun r' hr' => hf r' (List.mem_cons_of_mem r hr'))

lemma zip_self_filter_status (rs : List Row) :
    (rs.zip rs).filter (fun p => decide (p.1.status ≠ p.2.status)) = [] := by
  induction rs with
  | nil => rfl
  | cons r rs ih => simp [List.zip_cons_cons, List.filter, ih]

lemma zipFilter_updateFirstById (rows : List Row) (tid : String) (f : Row → Row) :
    ((rows.zip (updateFirstById rows tid f)).filter
      (fun p => decide (p.1.status ≠ p.2.status))).length ≤ 1 := by
  induction rows with
  | nil => simp
  | cons r rs ih =>
    by_cases h : r.id = tid
    · rw [updateFirstById, if_pos h, List.zip_cons_cons, List.filter_cons,
        zip_self_filter_status]
      split <;> simp
    · rw [updateFirstById, if_neg h, List.zip_cons_cons, List.filter_cons]
      simpa using ih

lemma length_updateFirstById (rows : List Row) (tid : String) (f : Row → Row) :
    (updateFirstById rows tid f).length = rows.length := by
  induction rows with
  | nil => rfl
  | cons r rs ih =>
    by_cases h : r.id = tid <;> simp [updateFirstById, h, ih]

lemma string_ne_empty_of_data {s : String} (h : s.data ≠ []) : s ≠ "" := by
  intro hc
  apply h
  rw [hc]

lemma truncate500_ne_empty {s : String} (h : s ≠ "") : truncate500 s ≠ "" := by
  apply string_ne_empty_of_data
  show (s.data.take 500) ≠ []
  rw [ne_eq, List.take_eq_nil_iff]
  push_neg
  refine ⟨by omega, ?_⟩
  intro hc
  exact h (by cases s with | mk d => simp_all)

lemma truncate500_length_le (s : String) : (truncate500 s).length ≤ 500 := by
  have h : (truncate500 s).length = (s.data.take 500).length := rfl
  rw [h]
  exact List.length_take_le _ _

lemma append_ne_empty_right {a b : String} (hb : b ≠ "") : a ++ b ≠ "" := by
  apply string_ne_empty_of_data
  intro hc
  rw [String.data_append, List.append_eq_nil] at hc
  exact hb (by cases b with | mk d => simp_all)

lemma excMessage_ne_empty (e : PostErr) : excMessage e ≠ "" := by
  cases e with
  | keyError v =>
    show ("KeyError: '" ++ v ++ "'" : String) ≠ ""
    apply append_ne_empty_right
    decide
  | httpError st reason =>
    show ("HTTPError: " ++ toString st ++ _ ++ reason ++
      " for url: https://api.twitter.com/2/tweets" : String) ≠ ""
    apply append_ne_empty_right
    decide
  | netError t d =>
    show (t ++ ": " ++ d : String) ≠ ""
    apply string_ne_empty_of_data
    intro hc
    rw [String.data_append, String.data_append, List.append_eq_nil,
      List.append_eq_nil] at hc
    have : (": " : String).data = [] := hc.1.2
    simp at this
  | jsonError t d =>
    show (t ++ ": " ++ d : String) ≠ ""
    apply string_ne_empty_of_data
    intro hc
    rw [String.data_append, String.data_append, List.append_eq_nil,
      List.append_eq_nil] at hc
    have : (": " : String).data = [] := hc.1.2
    simp at this
  | otherError t d =>
    show (t ++ ": " ++ d : String) ≠ ""
    apply string_ne_empty_of_data
    intro hc
    rw [String.data_append, String.data_append, List.append_eq_nil,
      List.append_eq_nil] at hc
    have : (": " : String).data = [] := hc.1.2
    simp at this

/-! Helper lemmas: the retry loop of `post_to_x`. -/

lemma consLog_attempts (w : Int) (l : RunLog) : (consLog w l).attempts = l.attempts + 1 := rfl

lemma consLog_result (w : Int) (l : RunLog) : (consLog w l).result = l.result := rfl

lemma oneLog_attempts (res : Except PostErr String) : (oneLog res).attempts = 1 := rfl

lemma oneLog_result (res : Except PostErr String) : (oneLog res).result = res := rfl

lemma postLoop_attempts_le (net : Nat → Attempt) (nowE : Nat) :
    ∀ (f a : Nat), (postLoop net nowE a f).attempts ≤ f := by
  intro f
  induction f with
  | zero => intro a; simp [postLoop]
  | succ fuel ih =>
    intro a
    cases hn : net a with
    | resp r =>
      simp only [postLoop, hn]
      by_cases h1 : r.status ∈ RETRY_STATUS
      · rw [if_pos h1]
        by_cases h2 : a < MAX_RETRIES
        · rw [if_pos h2, consLog_attempts]
          exact Nat.succ_le_succ (ih (a + 1))
        · rw [if_neg h2, oneLog_attempts]; omega
      · rw [if_neg h1]
        by_cases h4 : 400 ≤ r.status ∧ r.status < 600
        · rw [if_pos h4, oneLog_attempts]; omega
        · rw [if_neg h4]
          cases r.dataId <;> rw [oneLog_attempts] <;> omega
    | netErr tn d =>
      simp only [postLoop, hn]
      by_cases h2 : a < MAX_RETRIES
      · rw [if_pos h2, consLog_attempts]
        exact Nat.succ_le_succ (ih (a + 1))
      · rw [if_neg h2, oneLog_attempts]; omega
    | raised tn d => simp only [postLoop, hn, oneLog_attempts]; omega

lemma postLoop_attempts_pos (net : Nat → Attempt) (nowE : Nat) (f a : Nat)
    (hf : 1 ≤ f) : 1 ≤ (postLoop net nowE a f).attempts := by
  cases f with
  | zero => omega
  | succ fuel =>
    cases hn : net a with
    | resp r =>
      simp only [postLoop, hn]
      by_cases h1 : r.status ∈ RETRY_STATUS
      · rw [if_pos h1]
        by_cases h2 : a < MAX_RETRIES
        · rw [if_pos h2, consLog_attempts]; omega
        · rw [if_neg h2, oneLog_attempts]
      · rw [if_neg h1]
        by_cases h4 : 400 ≤ r.status ∧ r.status < 600
        · rw [if_pos h4, oneLog_attempts]
        · rw [if_neg h4]
          cases r.dataId <;> rw [oneLog_attempts]
    | netErr tn d =>
      simp only [postLoop, hn]
      by_cases h2 : a < MAX_RETRIES
      · rw [if_pos h2, consLog_attempts]; omega
      · rw [if_neg h2, oneLog_attempts]
    | raised tn d => simp only [postLoop, hn, oneLog_attempts]; omega

lemma postLoop_retried_retryable (net : Nat → Attempt) (nowE : Nat) :
    ∀ (f a j : Nat), a ≤ j → j + 1 < a + (postLoop net nowE a f).attempts →
      isRetryable (net j) = true := by
  intro f
  induction f with
  | zero =>
    intro a j haj hlt
    simp [postLoop] at hlt
    omega
  | succ fuel ih =>
    intro a j haj hlt
    cases hn : net a with
    | resp r =>
      simp only [postLoop, hn] at hlt
      by_cases h1 : r.status ∈ RETRY_STATUS
      · rw [if_pos h1] at hlt
        by_cases h2 : a < MAX_RETRIES
        · rw [if_pos h2, consLog_attempts] at hlt
          rcases Nat.eq_or_lt_of_le haj with rfl | hj
          · simp [isRetryable, hn, h1]
          · exact ih (a + 1) j hj (by omega)
        · rw [if_neg h2, oneLog_attempts] at hlt
          omega
      · rw [if_neg h1] at hlt
        by_cases h4 : 400 ≤ r.status ∧ r.status < 600
        · rw [if_pos h4, oneLog_attempts] at hlt; omega
        · rw [if_neg h4] at hlt
          cases hd : r.dataId <;> simp only [hd, oneLog_attempts] at hlt <;> omega
    | netErr tn d =>
      simp only [postLoop, hn] at hlt
      by_cases h2 : a < MAX_RETRIES
      · rw [if_pos h2, consLog_attempts] at hlt
        rcases Nat.eq_or_lt_of_le haj with rfl | hj
        · simp [isRetryable, hn]
        · exact ih (a + 1) j hj (by omega)
      · rw [if_neg h2, oneLog_attempts] at hlt
        omega
    | raised tn d =>
      simp only [postLoop, hn, oneLog_attempts] at hlt
      omega

lemma postLoop_exhaust (net : Nat → Attempt) (nowE : Nat) :
    ∀ (f a : Nat), a + f = 6 → a ≤ 5 →
      (∀ j, a ≤ j → j ≤ 5 → isRetryable (net j) = true) →
      (postLoop net nowE a f).attempts = f ∧
        (postLoop net nowE a f).result = .error (lastRaise (net 5)) := by
  intro f
  induction f with
  | zero => intro a hsync hle _; omega
  | succ fuel ih =>
    intro a hsync hle hall
    have hra := hall a (Nat.le_refl a) hle
    cases hn : net a with
    | resp r =>
      have hr : r.status ∈ RETRY_STATUS := by
        rw [hn] at hra
        simpa [isRetryable] using hra
      simp only [postLoop, hn, if_pos hr]
      by_cases ha : a < MAX_RETRIES
      · have ha5 : a < 5 := by simpa [MAX_RETRIES] using ha
        rw [if_pos ha]
        obtain ⟨ih1, ih2⟩ := ih (a + 1) (by omega) (by omega)
          (fun j hj1 hj2 => hall j (by omega) hj2)
        rw [consLog_attempts, consLog_result, ih1, ih2]
        exact ⟨rfl, rfl⟩
      · have ha5 : ¬ a < 5 := by simpa [MAX_RETRIES] using ha
        have haeq : a = 5 := by omega
        subst haeq
        rw [if_neg ha, oneLog_attempts, oneLog_result, hn]
        exact ⟨by omega, rfl⟩
    | netErr tn d =>
      simp only [postLoop, hn]
      by_cases ha : a < MAX_RETRIES
      · have ha5 : a < 5 := by simpa [MAX_RETRIES] using ha
        rw [if_pos ha]
        obtain ⟨ih1, ih2⟩ := ih (a + 1) (by omega) (by omega)
          (fun j hj1 hj2 => hall j (by omega) hj2)
        rw [consLog_attempts, consLog_result, ih1, ih2]
        exact ⟨rfl, rfl⟩
      · have ha5 : ¬ a < 5 := by simpa [MAX_RETRIES] using ha
        have haeq : a = 5 := by omega
        subst haeq
        rw [if_neg ha, oneLog_attempts, oneLog_result, hn]
        exact ⟨by omega, rfl⟩
    | raised tn d =>
      rw [hn] at hra
      simp [isRetryable] at hra

lemma postLoop_nonretry (net : Nat → Attempt) (nowE : Nat) :
    ∀ (f a k : Nat) (r' : Resp), a + f = 6 → a ≤ k → k ≤ 5 →
      net k = .resp r' → 400 ≤ r'.status → r'.status < 600 →
      r'.status ∉ RETRY_STATUS →
      (∀ j, a ≤ j → j < k → isRetryable (net j) = true) →
      (postLoop net nowE a f).result = .error (.httpError r'.status r'.reason) ∧
        (postLoop net nowE a f).attempts + a = k + 1 := by
  intro f
  induction f with
  | zero => intro a k r' hsync hak hk5 _ _ _ _ _; omega
  | succ fuel ih =>
    intro a k r' hsync hak hk5 hnk h4a h4b hnr hprev
    rcases Nat.eq_or_lt_of_le hak with rfl | hlt
    · simp only [postLoop, hnk, if_neg hnr, if_pos (And.intro h4a h4b),
        oneLog_attempts, oneLog_result]
      exact ⟨trivial, by omega⟩
    · have hra := hprev a (Nat.le_refl a) hlt
      have haM : a < MAX_RETRIES := by
        simp only [MAX_RETRIES]
        omega
      cases hn : net a with
      | resp r =>
        have hr : r.status ∈ RETRY_STATUS := by
          rw [hn] at hra
          simpa [isRetryable] using hra
        simp only [postLoop, hn, if_pos hr, if_pos haM]
        obtain ⟨ih1, ih2⟩ := ih (a + 1) k r' (by omega) (by omega) hk5 hnk h4a h4b hnr
          (fun j hj1 hj2 => hprev j (by omega) hj2)
        rw [consLog_attempts, consLog_result, ih1]
        exact ⟨rfl, by omega⟩
      | netErr tn d =>
        simp only [postLoop, hn, if_pos haM]
        obtain ⟨ih1, ih2⟩ := ih (a + 1) k r' (by omega) (by omega) hk5 hnk h4a h4b hnr
          (fun j hj1 hj2 => hprev j (by omega) hj2)
        rw [consLog_attempts, consLog_result, ih1]
        exact ⟨rfl, by omega⟩
      | raised tn d =>
        rw [hn] at hra
        simp [isRetryable] at hra

lemma postLoop_progress (net : Nat → Attempt) (nowE : Nat) :
    ∀ (f a k : Nat), a + f = 6 → a ≤ k → k < 5 →
      (∀ j, a ≤ j → j ≤ k → isRetryable (net j) = true) →
      k + 1 < a + (postLoop net nowE a f).attempts := by
  intro f
  induction f with
  | zero => intro a k hsync hak hk5 _; omega
  | succ fuel ih =>
    intro a k hsync hak hk5 hall
    have hra := hall a (Nat.le_refl a) hak
    have haM : a < MAX_RETRIES := by
      simp only [MAX_RETRIES]
      omega
    cases hn : net a with
    | resp r =>
      have hr : r.status ∈ RETRY_STATUS := by
        rw [hn] at hra
        simpa [isRetryable] using hra
      simp only [postLoop, hn, if_pos hr, if_pos haM, consLog_attempts]
      rcases Nat.eq_or_lt_of_le hak with rfl | hlt
      · have hpos := postLoop_attempts_pos net nowE fuel (a + 1) (by omega)
        omega
      · have := ih (a + 1) k (by omega) (by omega) hk5
          (fun j hj1 hj2 => hall j (by omega) hj2)
        omega
    | netErr tn d =>
      simp only [postLoop, hn, if_pos haM, consLog_attempts]
      rcases Nat.eq_or_lt_of_le hak with rfl | hlt
      · have hpos := postLoop_attempts_pos net nowE fuel (a + 1) (by omega)
        omega
      · have := ih (a + 1) k (by omega) (by omega) hk5
          (fun j hj1 hj2 => hall j (by omega) hj2)
        omega
    | raised tn d =>
      rw [hn] at hra
      simp [isRetryable] at hra

/-! Helper lemmas: reduction of `mainRun` along its branches. -/

lemma isEmpty_false_of_sel {rows : List Row} {now : DateTime} {t : Row}
    (hsel : selectTarget rows now = some t) : rows.isEmpty = false := by
  cases rows with
  | nil => rw [selectTarget_nil] at hsel; cases hsel
  | cons a as => rfl

lemma post_to_x_auth_ok {env : String → Option String} {auth : Auth}
    (net : Nat → Attempt) (nowEpoch : Nat) (text : String) (rto : Option String)
    (h : make_auth env = .ok auth) :
    post_to_x env net nowEpoch text rto = postLoop net nowEpoch 1 MAX_RETRIES := by
  simp [post_to_x, h]

lemma post_to_x_auth_err {env : String → Option String} {e : PostErr}
    (net : Nat → Attempt) (nowEpoch : Nat) (text : String) (rto : Option String)
    (h : make_auth env = .error e) :
    post_to_x env net nowEpoch text rto = ⟨.error e, 0, []⟩ := by
  simp [post_to_x, h]

lemma mainRun_parent_error {rows : List Row} {now : DateTime} {t : Row} {e : PostErr}
    {nowEpoch : Nat} {env : String → Option String} {parentNet replyNet : Nat → Attempt}
    (hsel : selectTarget rows now = some t)
    (herr : (post_to_x env parentNet nowEpoch t.text none).result = .error e) :
    mainRun now nowEpoch env parentNet replyNet rows =
      ⟨some (updateFirstById rows t.id fun r =>
          { r with last_error := truncate500 (excMessage e),
                   last_attempt_at_jst := fmtDateTime now }), 0, none⟩ := by
  have hne := isEmpty_false_of_sel hsel
  unfold mainRun
  simp [hne, hsel, herr]

lemma mainRun_success_noreply {rows : List Row} {now : DateTime} {t : Row} {tid : String}
    {nowEpoch : Nat} {env : String → Option String} {parentNet replyNet : Nat → Attempt}
    (hsel : selectTarget rows now = some t)
    (hok : (post_to_x env parentNet nowEpoch t.text none).result = .ok tid)
    (hrt : pyStrip t.reply_text = "") :
    mainRun now nowEpoch env parentNet replyNet rows =
      ⟨some (updateFirstById rows t.id fun r =>
          { r with status := "posted", tweet_id := tid,
                   posted_at_jst := fmtDateTime now, last_error := "",
                   last_attempt_at_jst := fmtDateTime now }), 0, none⟩ := by
  have hne := isEmpty_false_of_sel hsel
  unfold mainRun
  simp [hne, hsel, hok, hrt]

lemma mainRun_success_reply_ok {rows : List Row} {now : DateTime} {t : Row}
    {tid rid : String} {nowEpoch : Nat} {env : String → Option String}
    {parentNet replyNet : Nat → Attempt}
    (hsel : selectTarget rows now = some t)
    (hok : (post_to_x env parentNet nowEpoch t.text none).result = .ok tid)
    (hrt : ¬ pyStrip t.reply_text = "")
    (hrr : (post_to_x env replyNet nowEpoch (pyStrip t.reply_text) (some tid)).result = .ok rid) :
    mainRun now nowEpoch env parentNet replyNet rows =
      ⟨some (updateFirstById
          (updateFirstById rows t.id fun r =>
            { r with status := "posted", tweet_id := tid,
                     posted_at_jst := fmtDateTime now, last_error := "",
                     last_attempt_at_jst := fmtDateTime now })
          t.id fun r =>
            { r with reply_tweet_id := rid,
                     reply_posted_at_jst := fmtDateTime now }), 0, some tid⟩ := by
  have hne := isEmpty_false_of_sel hsel
  unfold mainRun
  simp [hne, hsel, hok, hrt, hrr]

lemma mainRun_success_reply_err {rows : List Row} {now : DateTime} {t : Row}
    {tid : String} {e2 : PostErr} {nowEpoch : Nat} {env : String → Option String}
    {parentNet replyNet : Nat → Attempt}
    (hsel : selectTarget rows now = some t)
    (hok : (post_to_x env parentNet nowEpoch t.text none).result = .ok tid)
    (hrt : ¬ pyStrip t.reply_text = "")
    (hrr : (post_to_x env replyNet nowEpoch (pyStrip t.reply_text)
        (some tid)).result = .error e2) :
    mainRun now nowEpoch env parentNet replyNet rows =
      ⟨some (updateFirstById
          (updateFirstById rows t.id fun r =>
            { r with status := "posted", tweet_id := tid,
                     posted_at_jst := fmtDateTime now, last_error := "",
                     last_attempt_at_jst := fmtDateTime now })
          t.id fun r =>
            { r with last_error := truncate500 ("reply " ++ excMessage e2),
                     last_attempt_at_jst := fmtDateTime now }), 0, some tid⟩ := by
  have hne := isEmpty_false_of_sel hsel
  unfold mainRun
  simp [hne, hsel, hok, hrt, hrr]

lemma findRow?_update_self {rows : List Row} {t : Row}
    (hnd : (rows.map Row.id).Nodup) (hm : t ∈ rows)
    (f : Row → Row) (hid : ∀ r, (f r).id = r.id) :
    findRow? (updateFirstById rows t.id f) t.id = some (f t) := by
  rw [findRow?_updateFirstById hid, findRow?_self hnd hm]
  rfl

lemma mk_saved (s : Option (List Row)) (e : Nat) (rc : Option String) :
    (MainResult.mk s e rc).saved = s := rfl

lemma append_ne_empty_left {a b : String} (ha : a ≠ "") : a ++ b ≠ "" := by
  apply string_ne_empty_of_data
  intro hc
  rw [String.data_append, List.append_eq_nil] at hc
  exact ha (by cases a with | mk d => simp_all)

/-! Claim theorems. -/

/-- C1: inside a slot window, `pick_slot_post` selects — among queued rows
with a parseable `post_at` on the current calendar day, in the slot hour, and
not after `now` — the row with the earliest `post_at`, ties broken by first
position in file order; and whenever such a row exists, `main` selects it
before any backlog row is considered. -/
theorem c1_slot_selection (rows : List Row) (now : DateTime) (h : Nat)
    (hs : guess_slot_hour now = some h) :
    pick_slot_post rows now h = specSlotPick rows now h ∧
    ∀ r, specSlotPick rows now h = some r → selectTarget rows now = some r := by
  refine ⟨pick_slot_post_eq_spec rows now h, ?_⟩
  intro r hr
  exact selectTarget_of_slot hs (by rw [pick_slot_post_eq_spec]; exact hr)

/-- Witness for C1 at a concrete queue and clock. -/
theorem c1_slot_selection_witness :
    pick_slot_post c1rows c1now 8 = specSlotPick c1rows c1now 8 ∧
    ∀ r, specSlotPick c1rows c1now 8 = some r → selectTarget c1rows c1now = some r :=
  c1_slot_selection c1rows c1now 8 (by decide)

/-- C2: when no queued row matches the current slot (or the current time is
outside every slot window), `main` selects the queued row with the earliest
parseable `post_at` at most `now` over all rows regardless of day or hour;
and when no such row exists, the run saves nothing, exits 0, and attempts no
reply ("nothing to do"). -/
theorem c2_backlog_fallback (rows : List Row) (now : DateTime)
    (hns : ∀ h, guess_slot_hour now = some h → specSlotPick rows now h = none) :
    selectTarget rows now = specBacklogPick rows now ∧
    (specBacklogPick rows now = none →
      ∀ (nowEpoch : Nat) (env : String → Option String)
        (parentNet replyNet : Nat → Attempt),
        mainRun now nowEpoch env parentNet replyNet rows = ⟨none, 0, none⟩) := by
  have h1 : selectTarget rows now = pick_oldest_overdue rows now :=
    selectTarget_no_slot fun h hg => by
      rw [pick_slot_post_eq_spec]
      exact hns h hg
  constructor
  · rw [h1, pick_oldest_overdue_eq_spec]
  · intro hnone nowEpoch env parentNet replyNet
    apply mainRun_no_target
    rw [h1, pick_oldest_overdue_eq_spec]
    exact hnone

/-- Witness for C2 at a concrete queue and a clock outside every slot. -/
theorem c2_backlog_fallback_witness :
    selectTarget c2rows c2now = specBacklogPick c2rows c2now ∧
    (specBacklogPick c2rows c2now = none →
      ∀ (nowEpoch : Nat) (env : String → Option String)
        (parentNet replyNet : Nat → Attempt),
        mainRun c2now nowEpoch env parentNet replyNet c2rows = ⟨none, 0, none⟩) :=
  c2_backlog_fallback c2rows c2now (fun h hg => by
    have hg0 : guess_slot_hour c2now = none := by decide
    rw [hg0] at hg
    cases hg)

/-- C10: a run that selects no row (empty queue, or no queued row due)
returns before any save: nothing is written, so the persisted file — columns
included — is untouched, and the exit is clean. -/
theorem c10_no_selection_no_save (rows : List Row) (now : DateTime) (nowEpoch : Nat)
    (env : String → Option String) (parentNet replyNet : Nat → Attempt)
    (h : rows = [] ∨ selectTarget rows now = none) :
    mainRun now nowEpoch env parentNet replyNet rows = ⟨none, 0, none⟩ := by
  rcases h with rfl | h
  · exact mainRun_no_target (selectTarget_nil now) nowEpoch env parentNet replyNet
  · exact mainRun_no_target h nowEpoch env parentNet replyNet

/-- Witness for C10: a queue whose only queued row is in the future. -/
theorem c10_no_selection_no_save_witness :
    mainRun c10now 0 (fun _ => some "k") (fun _ => .netErr "ReadTimeout" "t")
      (fun _ => .netErr "ReadTimeout" "t") c10rows = ⟨none, 0, none⟩ :=
  c10_no_selection_no_save c10rows c10now 0 (fun _ => some "k")
    (fun _ => .netErr "ReadTimeout" "t") (fun _ => .netErr "ReadTimeout" "t")
    (Or.inr (by decide))

/-- C4 (amended): the wait computed before a retry is the exponential value
`min (5 * 2^(attempt-1)) 120`, except that for an HTTP 429 response carrying
a numeric `x-rate-limit-reset` header the exponential term is replaced by
`max 1 (reset - now)`, the result still being capped at 120 seconds; in
particular a 429 with reset = now + 10 yields a wait of 10 seconds.  The
network-error branch always uses the exponential value. -/
theorem c4_backoff_amended :
    ∀ (r : Resp) (attempt nowEpoch : Nat),
      calc_wait_seconds (some r) attempt nowEpoch =
        (match has429Reset r with
         | some resetN => min (max 1 ((resetN : Int) - (nowEpoch : Int))) 120
         | none => min ((5 : Int) * 2 ^ (attempt - 1)) 120) ∧
      calc_wait_seconds none attempt nowEpoch = min ((5 : Int) * 2 ^ (attempt - 1)) 120 ∧
      netRetryWait attempt = min ((5 : Int) * 2 ^ (attempt - 1)) 120 ∧
      calc_wait_seconds (some ⟨429, "", some "1700000010", none⟩) 1 1700000000 = 10 := by
  intro r attempt nowEpoch
  refine ⟨?_, ?_, ?_, by decide⟩
  · by_cases h9 : r.status = 429
    · cases hrl : r.rateLimitReset with
      | none =>
        simp [calc_wait_seconds, has429Reset, h9, hrl, BASE_SLEEP_SEC, MAX_SLEEP_SEC]
      | some s =>
        by_cases hd : isdigitStr s = true
        · simp [calc_wait_seconds, has429Reset, h9, hrl, hd, MAX_SLEEP_SEC]
        · simp [calc_wait_seconds, has429Reset, h9, hrl, hd, BASE_SLEEP_SEC,
            MAX_SLEEP_SEC]
    · simp [calc_wait_seconds, has429Reset, h9, BASE_SLEEP_SEC, MAX_SLEEP_SEC]
  · simp [calc_wait_seconds, BASE_SLEEP_SEC, MAX_SLEEP_SEC]
  · simp [netRetryWait, BASE_SLEEP_SEC, MAX_SLEEP_SEC]

/-- Counterexample to C4 as stated: for a 429 whose reset lies 200 seconds
ahead, the code waits 120 seconds (the cap), not the claimed
`max 1 (reset - now) = 200`. -/
theorem c4_backoff_counterexample :
    calc_wait_seconds (some ⟨429, "Too Many Requests", some "1000", none⟩) 1 800 = 120 ∧
    max 1 ((1000 : Int) - (800 : Int)) = 200 ∧ (120 : Int) ≠ 200 :=
  ⟨by decide, by decide, by decide⟩

/-- C3: `post_to_x` makes at most `MAX_RETRIES = 5` POST attempts; with valid
credentials, every attempt that was followed by another was retryable (HTTP
429/502/503/504 or a network timeout/connection failure); if all five
attempts fail retryably the run uses exactly five attempts and raises the
last error; a non-retryable HTTP status in 400..599 reached after only
retryable outcomes is surfaced as a failure at that very attempt, with no
further attempt; and as long as only retryable outcomes occur and attempts
remain, the loop does retry. -/
theorem c3_retry_policy (env : String → Option String) (net : Nat → Attempt)
    (nowEpoch : Nat) (text : String) (rto : Option String) :
    (post_to_x env net nowEpoch text rto).attempts ≤ MAX_RETRIES ∧
    (∀ auth, make_auth env = .ok auth →
      ((∀ j, 1 ≤ j → j + 1 < 1 + (post_to_x env net nowEpoch text rto).attempts →
          isRetryable (net j) = true) ∧
       ((∀ j, 1 ≤ j → j ≤ MAX_RETRIES → isRetryable (net j) = true) →
          (post_to_x env net nowEpoch text rto).attempts = MAX_RETRIES ∧
          (post_to_x env net nowEpoch text rto).result =
            .error (lastRaise (net MAX_RETRIES))) ∧
       (∀ k r', 1 ≤ k → k ≤ MAX_RETRIES → net k = .resp r' → 400 ≤ r'.status →
          r'.status < 600 → r'.status ∉ RETRY_STATUS →
          (∀ j, 1 ≤ j → j < k → isRetryable (net j) = true) →
          (post_to_x env net nowEpoch text rto).result =
            .error (.httpError r'.status r'.reason) ∧
          (post_to_x env net nowEpoch text rto).attempts = k) ∧
       (∀ k, 1 ≤ k → k < MAX_RETRIES →
          (∀ j, 1 ≤ j → j ≤ k → isRetryable (net j) = true) →
          k + 1 ≤ (post_to_x env net nowEpoch text rto).attempts))) := by
  cases hma : make_auth env with
  | error e =>
    constructor
    · rw [post_to_x_auth_err net nowEpoch text rto hma]
      simp [MAX_RETRIES]
    · intro auth hok
      exact Except.noConfusion hok
  | ok auth =>
    have hpx := post_to_x_auth_ok net nowEpoch text rto hma
    constructor
    · rw [hpx]
      exact postLoop_attempts_le net nowEpoch MAX_RETRIES 1
    · intro _ _
      refine ⟨?_, ?_, ?_, ?_⟩
      · intro j hj1 hjlt
        rw [hpx] at hjlt
        exact postLoop_retried_retryable net nowEpoch MAX_RETRIES 1 j hj1 hjlt
      · intro hall
        rw [hpx]
        exact postLoop_exhaust net nowEpoch MAX_RETRIES 1 (by decide) (by decide)
          (fun j h1 h2 => hall j h1 (by simpa [MAX_RETRIES] using h2))
      · intro k r' hk1 hk5 hnk h4a h4b hnr hprev
        rw [hpx]
        obtain ⟨h1, h2⟩ := postLoop_nonretry net nowEpoch MAX_RETRIES 1 k r'
          (by decide) hk1 (by simpa [MAX_RETRIES] using hk5) hnk h4a h4b hnr hprev
        exact ⟨h1, by omega⟩
      · intro k hk1 hk5 hall
        rw [hpx]
        have := postLoop_progress net nowEpoch MAX_RETRIES 1 k (by decide) hk1
          (by simpa [MAX_RETRIES] using hk5) hall
        omega

/-- Witness for C3: with all five attempts timing out, the run makes exactly
five attempts and raises the last timeout. -/
theorem c3_retry_policy_witness :
    (post_to_x c3env c3net 0 "msg" none).attempts = MAX_RETRIES ∧
    (post_to_x c3env c3net 0 "msg" none).result =
      .error (lastRaise (c3net MAX_RETRIES)) :=
  ((c3_retry_policy c3env c3net 0 "msg" none).2 ⟨"k", "k", "k", "k"⟩ rfl).2.1
    (fun j h1 h2 => rfl)


/-- C5: when the parent post succeeds, the success update turns the selected
row's status to `posted`, stores the returned remote id in `tweet_id`, stamps
`posted_at`, and clears `last_error`; in the saved row set the row keeps
status `posted`, the (non-empty) remote id, and the `posted_at` stamp on
every return path of the run. -/
theorem c5_success_updates (rows : List Row) (now : DateTime) (nowEpoch : Nat)
    (env : String → Option String) (parentNet replyNet : Nat → Attempt)
    (t : Row) (tid : String)
    (hnd : (rows.map Row.id).Nodup)
    (hsel : selectTarget rows now = some t)
    (hok : (post_to_x env parentNet nowEpoch t.text none).result = .ok tid)
    (hne : tid ≠ "") :
    findRow? (updateFirstById rows t.id fun r =>
        { r with status := "posted", tweet_id := tid,
                 posted_at_jst := fmtDateTime now, last_error := "",
                 last_attempt_at_jst := fmtDateTime now }) t.id =
      some { t with status := "posted", tweet_id := tid,
                    posted_at_jst := fmtDateTime now, last_error := "",
                    last_attempt_at_jst := fmtDateTime now } ∧
    ∃ rows', (mainRun now nowEpoch env parentNet replyNet rows).saved = some rows' ∧
      ∃ r', findRow? rows' t.id = some r' ∧ r'.status = "posted" ∧
        r'.tweet_id = tid ∧ r'.tweet_id ≠ "" ∧ r'.posted_at_jst = fmtDateTime now := by
  have hmem := selectTarget_mem hsel
  constructor
  · exact findRow?_update_self hnd hmem.1 _ (fun r => rfl)
  · by_cases hrt : pyStrip t.reply_text = ""
    · rw [mainRun_success_noreply hsel hok hrt, mk_saved]
      exact ⟨_, rfl, _, findRow?_update_self hnd hmem.1 _ (fun r => rfl),
        rfl, rfl, hne, rfl⟩
    · cases hrr : (post_to_x env replyNet nowEpoch (pyStrip t.reply_text)
          (some tid)).result with
      | ok rid =>
        have hcomp := updateFirstById_comp rows t.id
          (fun r => { r with status := "posted", tweet_id := tid, posted_at_jst := fmtDateTime now, last_error := "", last_attempt_at_jst := fmtDateTime now })
          (fun r => { r with reply_tweet_id := rid, reply_posted_at_jst := fmtDateTime now })
          (fun r => rfl)
        rw [mainRun_success_reply_ok hsel hok hrt hrr, mk_saved, hcomp]
        exact ⟨_, rfl, _, findRow?_update_self hnd hmem.1 _ (fun r => rfl),
          rfl, rfl, hne, rfl⟩
      | error e2 =>
        have hcomp := updateFirstById_comp rows t.id
          (fun r => { r with status := "posted", tweet_id := tid, posted_at_jst := fmtDateTime now, last_error := "", last_attempt_at_jst := fmtDateTime now })
          (fun r => { r with last_error := truncate500 ("reply " ++ excMessage e2), last_attempt_at_jst := fmtDateTime now })
          (fun r => rfl)
        rw [mainRun_success_reply_err hsel hok hrt hrr, mk_saved, hcomp]
        exact ⟨_, rfl, _, findRow?_update_self hnd hmem.1 _ (fun r => rfl),
          rfl, rfl, hne, rfl⟩

/-- Witness for C5 at a concrete successful run. -/
theorem c5_success_updates_witness :
    findRow? (updateFirstById c5rows c5row.id fun r =>
        { r with status := "posted", tweet_id := "123", posted_at_jst := fmtDateTime c5now, last_error := "", last_attempt_at_jst := fmtDateTime c5now }) c5row.id =
      some { c5row with status := "posted", tweet_id := "123", posted_at_jst := fmtDateTime c5now, last_error := "", last_attempt_at_jst := fmtDateTime c5now } ∧
    ∃ rows', (mainRun c5now 0 c5env c5net c5net c5rows).saved = some rows' ∧
      ∃ r', findRow? rows' c5row.id = some r' ∧ r'.status = "posted" ∧
        r'.tweet_id = "123" ∧ r'.tweet_id ≠ "" ∧
        r'.posted_at_jst = fmtDateTime c5now :=
  c5_success_updates c5rows c5now 0 c5env c5net c5net c5row "123"
    (by decide) (by decide) (by decide) (by decide)

/-- C6: when delivery of the selected row fails (exhausted retries included),
the run saves the row set with only the selected row rewritten: its
`last_error` holds the (non-empty) exception message truncated to 500
characters, `last_attempt_at` holds the current stamp, every other field —
status `queued` included — is unchanged, and the process exits 0. -/
theorem c6_failure_records (rows : List Row) (now : DateTime) (nowEpoch : Nat)
    (env : String → Option String) (parentNet replyNet : Nat → Attempt)
    (t : Row) (e : PostErr)
    (hnd : (rows.map Row.id).Nodup)
    (hsel : selectTarget rows now = some t)
    (herr : (post_to_x env parentNet nowEpoch t.text none).result = .error e) :
    mainRun now nowEpoch env parentNet replyNet rows =
      ⟨some (updateFirstById rows t.id fun r =>
          { r with last_error := truncate500 (excMessage e),
                   last_attempt_at_jst := fmtDateTime now }), 0, none⟩ ∧
    findRow? (updateFirstById rows t.id fun r =>
        { r with last_error := truncate500 (excMessage e),
                 last_attempt_at_jst := fmtDateTime now }) t.id =
      some { t with last_error := truncate500 (excMessage e),
                    last_attempt_at_jst := fmtDateTime now } ∧
    ({ t with last_error := truncate500 (excMessage e),
              last_attempt_at_jst := fmtDateTime now } : Row).status = "queued" ∧
    truncate500 (excMessage e) ≠ "" ∧ (truncate500 (excMessage e)).length ≤ 500 := by
  have hmem := selectTarget_mem hsel
  refine ⟨mainRun_parent_error hsel herr,
    findRow?_update_self hnd hmem.1 _ (fun r => rfl), ?_,
    truncate500_ne_empty (excMessage_ne_empty e), truncate500_length_le _⟩
  show t.status = "queued"
  exact hmem.2

/-- Witness for C6 at a concrete failing run (HTTP 500, non-retryable). -/
theorem c6_failure_records_witness :
    mainRun c6now 0 (fun _ => some "k") c6net c6net c6rows =
      ⟨some (updateFirstById c6rows c6row.id fun r =>
          { r with last_error := truncate500 (excMessage (.httpError 500 "Internal Server Error")), last_attempt_at_jst := fmtDateTime c6now }), 0, none⟩ ∧
    findRow? (updateFirstById c6rows c6row.id fun r =>
        { r with last_error := truncate500 (excMessage (.httpError 500 "Internal Server Error")), last_attempt_at_jst := fmtDateTime c6now }) c6row.id =
      some { c6row with last_error := truncate500 (excMessage (.httpError 500 "Internal Server Error")), last_attempt_at_jst := fmtDateTime c6now } ∧
    ({ c6row with last_error := truncate500 (excMessage (.httpError 500 "Internal Server Error")), last_attempt_at_jst := fmtDateTime c6now } : Row).status = "queued" ∧
    truncate500 (excMessage (.httpError 500 "Internal Server Error")) ≠ "" ∧
    (truncate500 (excMessage (.httpError 500 "Internal Server Error"))).length ≤ 500 :=
  c6_failure_records c6rows c6now 0 (fun _ => some "k") c6net c6net c6row
    (.httpError 500 "Internal Server Error") (by decide) (by decide) (by decide)

/-- C7: when the parent post succeeds and the row carries a non-blank
`reply_text`, exactly one follow-up post is attempted, referencing the
parent's remote id; if that reply fails, the failure is recorded in
`last_error` (non-empty) and `last_attempt_at`, while the parent row keeps
status `posted`, its `tweet_id`, and its `posted_at`. -/
theorem c7_reply_failure_keeps_posted (rows : List Row) (now : DateTime)
    (nowEpoch : Nat) (env : String → Option String)
    (parentNet replyNet : Nat → Attempt) (t : Row) (tid : String) (e2 : PostErr)
    (hnd : (rows.map Row.id).Nodup)
    (hsel : selectTarget rows now = some t)
    (hok : (post_to_x env parentNet nowEpoch t.text none).result = .ok tid)
    (hrt : ¬ pyStrip t.reply_text = "")
    (hrr : (post_to_x env replyNet nowEpoch (pyStrip t.reply_text)
        (some tid)).result = .error e2) :
    (mainRun now nowEpoch env parentNet replyNet rows).replyCall = some tid ∧
    ∃ rows', (mainRun now nowEpoch env parentNet replyNet rows).saved = some rows' ∧
      ∃ r', findRow? rows' t.id = some r' ∧
        r'.status = "posted" ∧ r'.tweet_id = tid ∧
        r'.posted_at_jst = fmtDateTime now ∧
        r'.last_error = truncate500 ("reply " ++ excMessage e2) ∧
        r'.last_error ≠ "" ∧ r'.last_attempt_at_jst = fmtDateTime now := by
  have hmem := selectTarget_mem hsel
  have hcomp := updateFirstById_comp rows t.id
    (fun r => { r with status := "posted", tweet_id := tid, posted_at_jst := fmtDateTime now, last_error := "", last_attempt_at_jst := fmtDateTime now })
    (fun r => { r with last_error := truncate500 ("reply " ++ excMessage e2), last_attempt_at_jst := fmtDateTime now })
    (fun r => rfl)
  rw [mainRun_success_reply_err hsel hok hrt hrr]
  refine ⟨rfl, ?_⟩
  rw [mk_saved, hcomp]
  refine ⟨_, rfl, _, findRow?_update_self hnd hmem.1 _ (fun r => rfl),
    rfl, rfl, rfl, rfl, ?_, rfl⟩
  show truncate500 ("reply " ++ excMessage e2) ≠ ""
  exact truncate500_ne_empty (append_ne_empty_left (by decide))

/-- Witness for C7: parent succeeds, reply hits HTTP 500 on every attempt. -/
theorem c7_reply_failure_keeps_posted_witness :
    (mainRun c7now 0 (fun _ => some "k") c7pnet c7rnet c7rows).replyCall = some "555" ∧
    ∃ rows', (mainRun c7now 0 (fun _ => some "k") c7pnet c7rnet c7rows).saved =
        some rows' ∧
      ∃ r', findRow? rows' c7row.id = some r' ∧
        r'.status = "posted" ∧ r'.tweet_id = "555" ∧
        r'.posted_at_jst = fmtDateTime c7now ∧
        r'.last_error = truncate500 ("reply " ++
          excMessage (.httpError 500 "Internal Server Error")) ∧
        r'.last_error ≠ "" ∧ r'.last_attempt_at_jst = fmtDateTime c7now :=
  c7_reply_failure_keeps_posted c7rows c7now 0 (fun _ => some "k") c7pnet c7rnet
    c7row "555" (.httpError 500 "Internal Server Error")
    (by decide) (by decide) (by decide) (by decide) (by decide)

/-- C8 (amended): a missing credential environment variable raises `KeyError`
inside the delivery call, which runs inside the dispatcher's catch-all
`except Exception` handler; the error is therefore recorded in the row's
`last_error`/`last_attempt_at` like any delivery failure and the process
exits 0 — it does not abort with a non-zero exit status. -/
theorem c8_config_error_caught (rows : List Row) (now : DateTime) (nowEpoch : Nat)
    (env : String → Option String) (parentNet replyNet : Nat → Attempt)
    (t : Row) (e : PostErr)
    (hnd : (rows.map Row.id).Nodup)
    (hsel : selectTarget rows now = some t)
    (hma : make_auth env = .error e) :
    mainRun now nowEpoch env parentNet replyNet rows =
      ⟨some (updateFirstById rows t.id fun r =>
          { r with last_error := truncate500 (excMessage e),
                   last_attempt_at_jst := fmtDateTime now }), 0, none⟩ ∧
    (mainRun now nowEpoch env parentNet replyNet rows).exitCode = 0 ∧
    findRow? (updateFirstById rows t.id fun r =>
        { r with last_error := truncate500 (excMessage e),
                 last_attempt_at_jst := fmtDateTime now }) t.id =
      some { t with last_error := truncate500 (excMessage e),
                    last_attempt_at_jst := fmtDateTime now } ∧
    ({ t with last_error := truncate500 (excMessage e),
              last_attempt_at_jst := fmtDateTime now } : Row).status = "queued" ∧
    truncate500 (excMessage e) ≠ "" := by
  have hmem := selectTarget_mem hsel
  have herr : (post_to_x env parentNet nowEpoch t.text none).result = .error e := by
    rw [post_to_x_auth_err parentNet nowEpoch t.text none hma]
  refine ⟨mainRun_parent_error hsel herr, ?_,
    findRow?_update_self hnd hmem.1 _ (fun r => rfl),
    ?_, truncate500_ne_empty (excMessage_ne_empty e)⟩
  · rw [mainRun_parent_error hsel herr]
  · show t.status = "queued"
    exact hmem.2

/-- Counterexample to C8 as stated: with `X_API_KEY` missing and a due queued
row, the run exits 0 (not non-zero) and the `KeyError` is caught and
recorded in the row's error fields, the row staying `queued`. -/
theorem c8_config_error_counterexample :
    (mainRun c8now 0 c8env c8net c8net [c8row]).exitCode = 0 ∧
    (mainRun c8now 0 c8env c8net c8net [c8row]).saved =
      some [{ c8row with last_error := "KeyError: 'X_API_KEY'", last_attempt_at_jst := "2024-01-01 08:05" }] ∧
    ({ c8row with last_error := "KeyError: 'X_API_KEY'", last_attempt_at_jst := "2024-01-01 08:05" } : Row).status = "queued" ∧
    ("KeyError: 'X_API_KEY'" : String) ≠ "" :=
  ⟨by decide, by decide, by decide, by decide⟩

/-- Witness for C8's amended statement at the same concrete run. -/
theorem c8_config_error_caught_witness :
    mainRun c8now 0 c8env c8net c8net [c8row] =
      ⟨some (updateFirstById [c8row] c8row.id fun r =>
          { r with last_error := truncate500 (excMessage (.keyError "X_API_KEY")),
                   last_attempt_at_jst := fmtDateTime c8now }), 0, none⟩ ∧
    (mainRun c8now 0 c8env c8net c8net [c8row]).exitCode = 0 ∧
    findRow? (updateFirstById [c8row] c8row.id fun r =>
        { r with last_error := truncate500 (excMessage (.keyError "X_API_KEY")),
                 last_attempt_at_jst := fmtDateTime c8now }) c8row.id =
      some { c8row with last_error := truncate500 (excMessage (.keyError "X_API_KEY")), last_attempt_at_jst := fmtDateTime c8now } ∧
    ({ c8row with last_error := truncate500 (excMessage (.keyError "X_API_KEY")), last_attempt_at_jst := fmtDateTime c8now } : Row).status = "queued" ∧
    truncate500 (excMessage (.keyError "X_API_KEY")) ≠ "" :=
  c8_config_error_caught [c8row] c8now 0 c8env c8net c8net c8row
    (.keyError "X_API_KEY") (by decide) (by decide) (by decide)

/-- C9: whatever a run saves has the same ids in the same order as the loaded
row set (no row deleted, none added), row for row the status is either
unchanged or a `queued` → `posted` transition (so no row ever goes from
`posted` back to `queued`), and at most one row changes status. -/
theorem c9_run_invariants (rows : List Row) (now : DateTime) (nowEpoch : Nat)
    (env : String → Option String) (parentNet replyNet : Nat → Attempt)
    (hnd : (rows.map Row.id).Nodup) :
    ∀ rows', (mainRun now nowEpoch env parentNet replyNet rows).saved = some rows' →
      rows'.map Row.id = rows.map Row.id ∧
      List.Forall₂ (fun a b => b.id = a.id ∧
          (b.status = a.status ∨ (a.status = "queued" ∧ b.status = "posted")))
        rows rows' ∧
      ((rows.zip rows').filter (fun p => decide (p.1.status ≠ p.2.status))).length ≤ 1 := by
  intro rows' hsaved
  cases hsel : selectTarget rows now with
  | none =>
    rw [mainRun_no_target hsel nowEpoch env parentNet replyNet, mk_saved] at hsaved
    exact Option.noConfusion hsaved
  | some t =>
    have hmem := selectTarget_mem hsel
    have hq : ∀ r ∈ rows, r.id = t.id → r.status = "queued" := fun r hr hid => by
      rw [row_eq_of_id hnd hmem.1 hr hid]
      exact hmem.2
    cases hres : (post_to_x env parentNet nowEpoch t.text none).result with
    | error e =>
      rw [mainRun_parent_error hsel hres, mk_saved] at hsaved
      injection hsaved with h
      subst h
      exact ⟨map_id_updateFirstById (fun r => rfl),
        forall₂_updateFirstById (fun r => rfl) (fun r _ _ => Or.inr rfl),
        zipFilter_updateFirstById rows t.id _⟩
    | ok tid =>
      by_cases hrt : pyStrip t.reply_text = ""
      · rw [mainRun_success_noreply hsel hres hrt, mk_saved] at hsaved
        injection hsaved with h
        subst h
        exact ⟨map_id_updateFirstById (fun r => rfl),
          forall₂_updateFirstById (fun r => rfl)
            (fun r hr hid => Or.inl ⟨hq r hr hid, rfl⟩),
          zipFilter_updateFirstById rows t.id _⟩
      · cases hrr : (post_to_x env replyNet nowEpoch (pyStrip t.reply_text)
            (some tid)).result with
        | ok rid =>
          have hcomp := updateFirstById_comp rows t.id
            (fun r => { r with status := "posted", tweet_id := tid, posted_at_jst := fmtDateTime now, last_error := "", last_attempt_at_jst := fmtDateTime now })
            (fun r => { r with reply_tweet_id := rid, reply_posted_at_jst := fmtDateTime now })
            (fun r => rfl)
          rw [mainRun_success_reply_ok hsel hres hrt hrr, mk_saved, hcomp] at hsaved
          injection hsaved with h
          subst h
          exact ⟨map_id_updateFirstById (fun r => rfl),
            forall₂_updateFirstById (fun r => rfl)
              (fun r hr hid => Or.inl ⟨hq r hr hid, rfl⟩),
            zipFilter_updateFirstById rows t.id _⟩
        | error e2 =>
          have hcomp := updateFirstById_comp rows t.id
            (fun r => { r with status := "posted", tweet_id := tid, posted_at_jst := fmtDateTime now, last_error := "", last_attempt_at_jst := fmtDateTime now })
            (fun r => { r with last_error := truncate500 ("reply " ++ excMessage e2), last_attempt_at_jst := fmtDateTime now })
            (fun r => rfl)
          rw [mainRun_success_reply_err hsel hres hrt hrr, mk_saved, hcomp] at hsaved
          injection hsaved with h
          subst h
          exact ⟨map_id_updateFirstById (fun r => rfl),
            forall₂_updateFirstById (fun r => rfl)
              (fun r hr hid => Or.inl ⟨hq r hr hid, rfl⟩),
            zipFilter_updateFirstById rows t.id _⟩

/-- Witness for C9 at a concrete successful run. -/
theorem c9_run_invariants_witness :
    c9rows'.map Row.id = c9rows.map Row.id ∧
    List.Forall₂ (fun a b => b.id = a.id ∧
        (b.status = a.status ∨ (a.status = "queued" ∧ b.status = "posted")))
      c9rows c9rows' ∧
    ((c9rows.zip c9rows').filter
      (fun p => decide (p.1.status ≠ p.2.status))).length ≤ 1 :=
  c9_run_invariants c9rows c9now 0 (fun _ => some "k") c9net c9net
    (by decide) c9rows' (by decide)
